import Mathlib

/-!
Verification of the token acquisition-and-caching component of the
BLE Tag Tracker backend (`src/backend/app.py`).

The component is embedded shallowly:

* Time is modelled in integer milliseconds (`Int`).  `datetime.now()`
  becomes an explicit `now : Int` parameter of each invocation;
  `timedelta(minutes=5)` is `300000` ms and `timedelta(seconds=s)` is
  `s * 1000` ms.
* The process-wide dictionary `token_cache = {'token': None,
  'expires_at': None}` becomes the structure `Cache` with two `Option`
  fields.
* The outcome of the single outbound `requests.post` call is an input
  of the invocation (`ProviderBehavior`): either a transport failure
  (`requests.post` raises: timeout, connection error) or an HTTP
  response carrying a status code, the raw body text, and the result of
  `response.json()` (`none` when the body is malformed JSON, in which
  case `.json()` raises).
* `get_token` returns the new cache state, the JSON/status payload it
  responds with, and the number of provider requests it issued.
-/

/-- The process-wide token cache of `app.py`
(`token_cache = {'token': None, 'expires_at': None}`).
`expires_at` is an absolute instant in milliseconds. -/
structure Cache where
  token : Option String
  expires_at : Option Int
  deriving Repr, DecidableEq

/-- The cache at process start: both fields `None`. -/
def initCache : Cache := { token := none, expires_at := none }

/-- The fields of the provider's JSON body that `get_token` reads:
`data['access_token']` (`none` models a missing key, which raises
`KeyError`) and `data.get('expires_in', 3600)`. -/
structure JsonBody where
  access_token : Option String
  expires_in : Option Nat
  deriving Repr, DecidableEq

/-- An HTTP response from the identity provider: `response.status_code`,
`response.text` (the raw body), and the result of `response.json()`
(`none` when the body is malformed JSON, so that `.json()` raises). -/
structure HttpResponse where
  status_code : Nat
  text : String
  json : Option JsonBody
  deriving Repr, DecidableEq

/-- What the single outbound `requests.post` call does in this
invocation: raise (timeout, connection error) or produce a response. -/
inductive ProviderBehavior where
  | failure
  | response (r : HttpResponse)
  deriving Repr, DecidableEq

/-- The JSON payload and HTTP status that `/api/token` responds with.
Fields absent from the Python dict on a given path are `none`. -/
structure TokenResult where
  status : Nat
  success : Bool
  access_token : Option String
  expires_in : Option Nat
  cached : Option Bool
  error : Option String
  detail : Option String
  deriving Repr, DecidableEq

/-- The `except` branch of `get_token`: Flask returns
`{'success': False, 'error': 'Internal server error'}, 500`. -/
def internalError : TokenResult :=
  { status := 500, success := false, access_token := none,
    expires_in := none, cached := none,
    error := some "Internal server error", detail := none }

/-- The guard of the cache-hit path, exactly as the source tests it:
`if token_cache['token'] and token_cache['expires_at']:` followed by
`if datetime.now() < token_cache['expires_at'] - timedelta(minutes=5):`.
Python truthiness: a string is truthy iff nonempty, a `datetime` is
always truthy, `None` is falsy. -/
def cacheHit (c : Cache) (now : Int) : Bool :=
  match c.token, c.expires_at with
  | some t, some e => decide (t ≠ "") && decide (now < e - 300000)
  | _, _ => false

/-- The fetch path of `get_token` (lines 96-152 of `app.py`): one
`requests.post`, then the 200 / non-200 / exception handling.  Returns
(new cache, response payload, number of provider requests issued). -/
def fetch_token (c : Cache) (now : Int) (pb : ProviderBehavior) :
    Cache × TokenResult × Nat :=
  match pb with
  | .failure => (c, internalError, 1)
  | .response r =>
    if r.status_code = 200 then
      match r.json with
      | none => (c, internalError, 1)
      | some data =>
        match data.access_token with
        | none => (c, internalError, 1)
        | some tok =>
          let expires_in := data.expires_in.getD 3600
          ({ token := some tok,
             expires_at := some (now + (expires_in : Int) * 1000) },
           { status := 200, success := true, access_token := some tok,
             expires_in := some expires_in, cached := some false,
             error := none, detail := none },
           1)
    else
      (c,
       { status := r.status_code, success := false, access_token := none,
         expires_in := none, cached := none,
         error := some ("Token request failed: " ++ toString r.status_code),
         detail := some r.text },
       1)

/-- `get_token` (`GET /api/token`): on a cache hit return the cached
token with `expires_in = int((expires_at - now).total_seconds())`
(Python `int()` truncates toward zero; on this path the difference is
positive, so this is floor division of milliseconds by 1000), otherwise
fall through to the fetch path. -/
def get_token (c : Cache) (now : Int) (pb : ProviderBehavior) :
    Cache × TokenResult × Nat :=
  if cacheHit c now then
    (c,
     { status := 200, success := true, access_token := c.token,
       expires_in := some ((c.expires_at.getD 0 - now).toNat / 1000),
       cached := some true, error := none, detail := none },
     0)
  else
    fetch_token c now pb

/-- The JSON payload of `/api/health`. `token_expires_at` carries the
expiry instant rendered by `isoformat()`; the rendering is injective,
so the instant itself stands for the rendered string. -/
structure HealthResult where
  status : String
  token_cached : Bool
  token_expires_at : Option Int
  deriving Repr, DecidableEq

/-- `health_check` (`GET /api/health`): a pure read of the cache,
returning (unchanged cache, payload, HTTP status 200).
`token_cached` is `token_cache['token'] is not None`;
`token_expires_at` is `expires_at.isoformat() if expires_at else None`
(a `datetime` is always truthy, so the test is `is not None`). -/
def health_check (c : Cache) : Cache × HealthResult × Nat :=
  (c,
   { status := "healthy",
     token_cached := c.token.isSome,
     token_expires_at := c.expires_at },
   200)

/-- One inbound request to the service, as it affects the cache. -/
inductive Request where
  | tokenReq (now : Int) (pb : ProviderBehavior)
  | healthReq

/-- The cache after serving one request. -/
def stepCache (c : Cache) : Request → Cache
  | .tokenReq now pb => (get_token c now pb).1
  | .healthReq => (health_check c).1

/-- Cache states reachable from process start by serving requests. -/
inductive Reachable : Cache → Prop
  | init : Reachable initCache
  | step {c : Cache} (r : Request) : Reachable c → Reachable (stepCache c r)

/-- The spec's formula for the remaining lifetime on a cache hit:
`ceil(expiresAt - now)` in whole seconds, with the instants in
milliseconds. -/
def ceilSecondsSpec (ms : Int) : Nat := (ms.toNat + 999) / 1000

/-- The spec's "cache miss or expiry" condition: no token has been
cached, or the cached entry is past the safety margin. -/
def absentOrStale (c : Cache) (now : Int) : Prop :=
  c.token = none ∨ c.expires_at = none ∨
    ∃ e, c.expires_at = some e ∧ e - 300000 ≤ now

lemma not_hit_of_absentOrStale (c : Cache) (now : Int)
    (h : absentOrStale c now) : cacheHit c now = false := by
  rcases htok : c.token with _ | t <;> rcases hexp : c.expires_at with _ | e <;>
    simp [cacheHit, htok, hexp]
  rcases h with h | h | ⟨e2, he2, hle⟩
  · simp [htok] at h
  · simp [hexp] at h
  · rw [hexp] at he2
    injection he2 with he2
    subst he2
    intro _
    omega

lemma fetch_token_count (c : Cache) (now : Int) (pb : ProviderBehavior) :
    (fetch_token c now pb).2.2 = 1 := by
  cases pb with
  | failure => rfl
  | response r =>
    by_cases hs : r.status_code = 200 <;>
      rcases hj : r.json with _ | data <;>
      simp [fetch_token, hs, hj]
    rcases data.access_token with _ | tok <;> simp

lemma fetch_token_not_cached (c : Cache) (now : Int) (pb : ProviderBehavior) :
    (fetch_token c now pb).2.1.cached ≠ some true := by
  cases pb with
  | failure => simp [fetch_token, internalError]
  | response r =>
    by_cases hs : r.status_code = 200 <;>
      rcases hj : r.json with _ | data <;>
      simp [fetch_token, hs, hj, internalError]
    rcases data.access_token with _ | tok <;> simp [internalError]

example :
    (get_token { token := some "abc", expires_at := some 1000000 } 5
      ProviderBehavior.failure).2.1.cached = some true := by decide

example :
    (get_token initCache 5
      (ProviderBehavior.response
        { status_code := 200, text := "",
          json := some { access_token := some "xyz", expires_in := some 1200 } })).1
      = { token := some "xyz", expires_at := some 1200005 } := by decide

lemma fetch_token_fst (c : Cache) (now : Int) (pb : ProviderBehavior) :
    (fetch_token c now pb).1 = c ∨
      ∃ tok ei, (fetch_token c now pb).1 =
        { token := some tok, expires_at := some (now + (ei : Int) * 1000) } := by
  cases pb with
  | failure => exact Or.inl rfl
  | response r =>
    by_cases hs : r.status_code = 200 <;>
      rcases hj : r.json with _ | data <;>
      simp [fetch_token, hs, hj]
    rcases ha : data.access_token with _ | tok
    · simp
    · exact Or.inr ⟨tok, data.expires_in.getD 3600, rfl⟩

/-- In every reachable cache state, `token` and `expires_at` are `None`
together or set together. -/
lemma cache_invariant {c : Cache} (h : Reachable c) :
    c.token = none ↔ c.expires_at = none := by
  induction h with
  | init => simp [initCache]
  | @step c0 r _ ih =>
    cases r with
    | healthReq => exact ih
    | tokenReq now pb =>
      simp only [stepCache]
      by_cases hhit : cacheHit c0 now
      · simpa [get_token, hhit] using ih
      · simp only [get_token, hhit, Bool.false_eq_true, if_false]
        rcases fetch_token_fst c0 now pb with hf | ⟨tok, ei, hf⟩
        · rw [hf]; exact ih
        · rw [hf]; simp

lemma cacheHit_of_fields {c : Cache} {t : String} {e now : Int}
    (ht : c.token = some t) (hne : t ≠ "") (he : c.expires_at = some e)
    (hlt : now < e - 300000) : cacheHit c now = true := by
  simp [cacheHit, ht, he, hne, hlt]

/-- C1 (amended): if a nonempty token is cached with expiry `e` and
`now < e - 5 min`, `get_token` returns success with the cached token and
`cached: true`, issues no provider request, and leaves the cache entry
unchanged. -/
theorem C1_valid_cache_hit (c : Cache) (t : String) (e now : Int)
    (pb : ProviderBehavior)
    (ht : c.token = some t) (hne : t ≠ "") (he : c.expires_at = some e)
    (hlt : now < e - 300000) :
    get_token c now pb =
      (c, { status := 200, success := true, access_token := some t,
            expires_in := some ((e - now).toNat / 1000), cached := some true,
            error := none, detail := none }, 0) := by
  have hhit := cacheHit_of_fields ht hne he hlt
  simp [get_token, hhit, ht, he]

/-- C1 witness: a concrete valid cache hit served without a fetch. -/
theorem C1_valid_cache_hit_witness :
    get_token { token := some "tok", expires_at := some 1000000 } 5
      ProviderBehavior.failure =
      ({ token := some "tok", expires_at := some 1000000 },
       { status := 200, success := true, access_token := some "tok",
         expires_in := some 999, cached := some true,
         error := none, detail := none }, 0) :=
  C1_valid_cache_hit _ "tok" 1000000 5 ProviderBehavior.failure rfl
    (by decide) rfl (by decide)

/-- C1 counterexample: the provider can cache an empty-string token
(`access_token = ""`); in that state the claim's hypothesis holds (a
token is cached and `now < expiresAt - 5 min`), yet Python's truthiness
test `if token_cache['token']` fails, so `get_token` issues a provider
request and does not answer `cached: true`. -/
theorem C1_empty_token_counterexample :
    (0 : Int) < 1000000000 - 300000 ∧
    (get_token { token := some "", expires_at := some 1000000000 } 0
        (ProviderBehavior.response
          { status_code := 401, text := "denied", json := none })).2.2 = 1 ∧
    (get_token { token := some "", expires_at := some 1000000000 } 0
        (ProviderBehavior.response
          { status_code := 401, text := "denied", json := none })).2.1.cached
      ≠ some true := by decide

/-- C2: on a miss (cache absent or stale), a provider response of 200
with an `access_token` overwrites the cache with the new token and
`expires_at = now + expires_in` (default 3600 s when absent), and the
call returns success, the new token, the provider-stated `expires_in`,
and `cached: false`. -/
theorem C2_refresh_on_success (c : Cache) (now : Int) (r : HttpResponse)
    (data : JsonBody) (tok : String)
    (h : absentOrStale c now) (hs : r.status_code = 200)
    (hj : r.json = some data) (ha : data.access_token = some tok) :
    get_token c now (ProviderBehavior.response r) =
      ({ token := some tok,
         expires_at := some (now + (data.expires_in.getD 3600 : Int) * 1000) },
       { status := 200, success := true, access_token := some tok,
         expires_in := some (data.expires_in.getD 3600), cached := some false,
         error := none, detail := none }, 1) := by
  have hmiss := not_hit_of_absentOrStale c now h
  simp [get_token, hmiss, fetch_token, hs, hj, ha]

/-- C2 witness: first fetch from the empty cache, provider grants a
token with `expires_in = 1200`. -/
theorem C2_refresh_on_success_witness :
    get_token initCache 0
      (ProviderBehavior.response
        { status_code := 200, text := "",
          json := some { access_token := some "abc123", expires_in := some 1200 } }) =
      ({ token := some "abc123", expires_at := some 1200000 },
       { status := 200, success := true, access_token := some "abc123",
         expires_in := some 1200, cached := some false,
         error := none, detail := none }, 1) := by
  have h := C2_refresh_on_success initCache 0
    { status_code := 200, text := "",
      json := some { access_token := some "abc123", expires_in := some 1200 } }
    { access_token := some "abc123", expires_in := some 1200 }
    "abc123" (Or.inl rfl) rfl rfl rfl
  simpa using h

/-- C3: `get_token` answers `cached: true` only when a token was cached
with an expiry and the current time is strictly below
`expiresAt - 5 min`; an expired-or-absent entry is never served as a
cached token. -/
theorem C3_cached_only_if_valid (c : Cache) (now : Int)
    (pb : ProviderBehavior)
    (h : (get_token c now pb).2.1.cached = some true) :
    ∃ t e, c.token = some t ∧ c.expires_at = some e ∧ now < e - 300000 := by
  by_cases hhit : cacheHit c now
  · rcases htok : c.token with _ | t <;> rcases hexp : c.expires_at with _ | e <;>
      simp [cacheHit, htok, hexp] at hhit
    exact ⟨t, e, rfl, rfl, hhit.2⟩
  · rw [get_token, if_neg hhit] at h
    exact absurd h (fetch_token_not_cached c now pb)

/-- C3 witness: instantiated at a concrete state answered from cache. -/
theorem C3_cached_only_if_valid_witness :
    ∃ t e,
      (Cache.mk (some "tok") (some 1000000)).token = some t ∧
      (Cache.mk (some "tok") (some 1000000)).expires_at = some e ∧
      (5 : Int) < e - 300000 :=
  C3_cached_only_if_valid { token := some "tok", expires_at := some 1000000 } 5
    ProviderBehavior.failure (by decide)

/-- C4: when the invocation consults the provider (no cache hit) and
the provider answers with a non-200 status, the cache is left
unchanged and the call returns `success: false`, the error string
`Token request failed: <status>`, the raw provider body as `detail`,
and the provider's own status code. -/
theorem C4_provider_error_passthrough (c : Cache) (now : Int)
    (r : HttpResponse)
    (hmiss : cacheHit c now = false) (hs : r.status_code ≠ 200) :
    get_token c now (ProviderBehavior.response r) =
      (c, { status := r.status_code, success := false, access_token := none,
            expires_in := none, cached := none,
            error := some ("Token request failed: " ++ toString r.status_code),
            detail := some r.text }, 1) := by
  simp [get_token, hmiss, fetch_token, hs]

/-- C4 witness: a 401 while a stale entry is cached leaves the entry
in place and forwards status 401 with the provider's body. -/
theorem C4_provider_error_passthrough_witness :
    get_token { token := some "old", expires_at := some 1000 } 2000000
      (ProviderBehavior.response
        { status_code := 401, text := "invalid_grant", json := none }) =
      ({ token := some "old", expires_at := some 1000 },
       { status := 401, success := false, access_token := none,
         expires_in := none, cached := none,
         error := some "Token request failed: 401",
         detail := some "invalid_grant" }, 1) :=
  C4_provider_error_passthrough _ 2000000 _ (by decide) (by decide)

/-- C5: a transport failure (`requests.post` raises) or a 200 response
whose body is malformed JSON (`response.json()` raises) leaves the
cache unchanged and returns status 500 with exactly
`Internal server error` and no detail. -/
theorem C5_transport_failure_generic_500 (c : Cache) (now : Int)
    (pb : ProviderBehavior)
    (hmiss : cacheHit c now = false)
    (hfail : pb = ProviderBehavior.failure ∨
      ∃ r, pb = ProviderBehavior.response r ∧ r.status_code = 200 ∧
        r.json = none) :
    get_token c now pb = (c, internalError, 1) := by
  rcases hfail with hf | ⟨r, hf, hs, hj⟩
  · simp [get_token, hmiss, hf, fetch_token]
  · simp [get_token, hmiss, hf, fetch_token, hs, hj]

/-- C5 witness: a timeout on the very first fetch yields the generic
500 and the cache stays empty. -/
theorem C5_transport_failure_generic_500_witness :
    get_token initCache 0 ProviderBehavior.failure =
      (initCache, internalError, 1) :=
  C5_transport_failure_generic_500 initCache 0 ProviderBehavior.failure
    (by decide) (Or.inl rfl)

/-- C6 counterexample: a cache hit with 1000.5 s of lifetime left
(`expiresAt - now = 1000500` ms) is answered with
`expires_in = 1000` — `int(...)` truncates — while the spec's
`ceil(expiresAt - now)` is 1001. -/
theorem C6_ceil_counterexample :
    (0 : Int) < 1000500 - 300000 ∧
    (get_token { token := some "tok", expires_at := some 1000500 } 0
        ProviderBehavior.failure).2.1.expires_in = some 1000 ∧
    ceilSecondsSpec (1000500 - 0) = 1001 ∧
    (get_token { token := some "tok", expires_at := some 1000500 } 0
        ProviderBehavior.failure).2.1.expires_in
      ≠ some (ceilSecondsSpec (1000500 - 0)) := by decide

/-- C6 (amended): on a cache hit, `expires_in` is the remaining
lifetime `expiresAt - now` in whole seconds rounded DOWN (Python
`int()` truncates toward zero), not rounded up. -/
theorem C6_hit_expires_in_floor (c : Cache) (e now : Int)
    (pb : ProviderBehavior)
    (hhit : cacheHit c now = true) (he : c.expires_at = some e) :
    (get_token c now pb).2.1.expires_in = some ((e - now).toNat / 1000) := by
  simp [get_token, hhit, he]

/-- C6 witness: the hit with 1000.5 s left reports 1000 s. -/
theorem C6_hit_expires_in_floor_witness :
    (get_token { token := some "tok", expires_at := some 1000500 } 0
        ProviderBehavior.failure).2.1.expires_in
      = some (((1000500 : Int) - 0).toNat / 1000) :=
  C6_hit_expires_in_floor _ 1000500 0 ProviderBehavior.failure
    (by decide) rfl

/-- C7: every invocation issues at most one provider request — exactly
one when the cache-hit test fails (in particular whenever no token is
cached), zero when it holds; there is no retry within an invocation. -/
theorem C7_at_most_one_request (c : Cache) (now : Int)
    (pb : ProviderBehavior) :
    (get_token c now pb).2.2 ≤ 1 ∧
    (get_token c now pb).2.2 = (if cacheHit c now then 0 else 1) ∧
    (c.token = none → (get_token c now pb).2.2 = 1) := by
  by_cases hhit : cacheHit c now
  · refine ⟨by simp [get_token, hhit], by simp [get_token, hhit], ?_⟩
    intro htok
    rcases hexp : c.expires_at with _ | e <;>
      simp [cacheHit, htok, hexp] at hhit
  · simp [get_token, hhit, fetch_token_count c now pb]

/-- C8: `health_check` never mutates the cache and never fails: in
every reachable state it responds with HTTP 200, `token_cached` true
exactly when a token is cached, and the cached entry's expiry instant
when one is cached, `null` otherwise. -/
theorem C8_health_check_pure_read (c : Cache) (h : Reachable c) :
    (health_check c).1 = c ∧
    (health_check c).2.2 = 200 ∧
    ((health_check c).2.1.token_cached = true ↔ ∃ t, c.token = some t) ∧
    ((health_check c).2.1.token_cached = true →
      ∃ e, c.expires_at = some e ∧
        (health_check c).2.1.token_expires_at = some e) ∧
    ((health_check c).2.1.token_cached = false →
      (health_check c).2.1.token_expires_at = none) := by
  have hinv := cache_invariant h
  refine ⟨rfl, rfl, ?_, ?_, ?_⟩
  · simp [health_check, Option.isSome_iff_exists]
  · intro hc
    simp only [health_check] at hc
    have htok : c.token ≠ none := by
      intro hn
      rw [hn] at hc
      simp at hc
    have hexp : c.expires_at ≠ none := fun hn => htok (hinv.mpr hn)
    rcases he : c.expires_at with _ | e
    · exact absurd he hexp
    · exact ⟨e, rfl, by simp [health_check, he]⟩
  · intro hc
    simp only [health_check] at hc
    have htok : c.token = none := by
      rcases ht : c.token with _ | t
      · rfl
      · rw [ht] at hc
        simp at hc
    show c.expires_at = none
    exact hinv.mp htok

/-- C8 witness: at process start `health_check` reports no cached
token and no expiry, with status 200 and the cache untouched. -/
theorem C8_health_check_pure_read_witness :
    (health_check initCache).1 = initCache ∧
    (health_check initCache).2.2 = 200 ∧
    ((health_check initCache).2.1.token_cached = true ↔
      ∃ t, initCache.token = some t) ∧
    ((health_check initCache).2.1.token_cached = true →
      ∃ e, initCache.expires_at = some e ∧
        (health_check initCache).2.1.token_expires_at = some e) ∧
    ((health_check initCache).2.1.token_cached = false →
      (health_check initCache).2.1.token_expires_at = none) :=
  C8_health_check_pure_read initCache Reachable.init

/-- C9: in every reachable cache state, `token` is `None` exactly when
`expires_at` is `None`: both start `None`, and every successful fetch
sets both together. -/
theorem C9_cache_fields_in_sync (c : Cache) (h : Reachable c) :
    c.token = none ↔ c.expires_at = none :=
  cache_invariant h

/-- C9 witness: the invariant at the initial state. -/
theorem C9_cache_fields_in_sync_witness :
    initCache.token = none ↔ initCache.expires_at = none :=
  C9_cache_fields_in_sync initCache Reachable.init

/-- C10: a 200 response whose JSON body lacks `access_token` raises
`KeyError` before any cache write, so the call falls into the generic
handler: status 500, `Internal server error`, cache unchanged. -/
theorem C10_missing_access_token_500 (c : Cache) (now : Int)
    (r : HttpResponse) (data : JsonBody)
    (hmiss : cacheHit c now = false) (hs : r.status_code = 200)
    (hj : r.json = some data) (ha : data.access_token = none) :
    get_token c now (ProviderBehavior.response r) =
      (c, internalError, 1) := by
  simp [get_token, hmiss, fetch_token, hs, hj, ha]

/-- C10 witness: a 200 body with only `expires_in` yields the generic
500 and an unchanged empty cache. -/
theorem C10_missing_access_token_500_witness :
    get_token initCache 0
      (ProviderBehavior.response
        { status_code := 200, text := "",
          json := some { access_token := none, expires_in := some 1200 } }) =
      (initCache, internalError, 1) :=
  C10_missing_access_token_500 initCache 0
    { status_code := 200, text := "",
      json := some { access_token := none, expires_in := some 1200 } }
    { access_token := none, expires_in := some 1200 }
    (by decide) rfl rfl rfl

/-- C7 witness: the empty initial cache triggers exactly one fetch. -/
theorem C7_at_most_one_request_witness :
    (get_token initCache 0 ProviderBehavior.failure).2.2 ≤ 1 ∧
    (get_token initCache 0 ProviderBehavior.failure).2.2 =
      (if cacheHit initCache 0 then 0 else 1) ∧
    (initCache.token = none →
      (get_token initCache 0 ProviderBehavior.failure).2.2 = 1) :=
  C7_at_most_one_request initCache 0 ProviderBehavior.failure
